import Mathlib

/-
  Shallow embedding of dsctl.py, a CLI client for a schema-registry control
  plane.  The program reads a self-describing JSON schema document, resolves
  its identity (vendor/name/format/version), and either validates it or
  promotes it between deployment environments over HTTP.

  Modelling choices:
  * JSON values are modelled by the inductive `Json` (numbers as `Int`;
    no claim exercises non-integer numbers).
  * Python raises exceptions; the embedding threads them explicitly.  The
    function bodies distinguish exceptions the source catches (its
    `except` clauses) from exceptions that propagate and crash the process.
  * Python dataclasses do not enforce their field type annotations at
    runtime, so `DataStructure` and `Version` fields are `Json` values:
    they hold whatever the constructor call passed.  In particular
    `resolve` builds `Version` from the results of `str.split`, which are
    strings, although the dataclass annotates the fields as `int`.
  * The HTTP layer is abstracted by a function from requests to outcomes;
    each operation also returns the list of requests it issued, so that
    "no network call is made" is the statement that this list is empty.
-/

namespace Dsctl

/-- A JSON value, as produced by json.load. -/
inductive Json where
  | null : Json
  | bool : Bool → Json
  | num : Int → Json
  | str : String → Json
  | arr : List Json → Json
  | obj : List (String × Json) → Json
deriving Repr

/-- The Python exceptions the program can raise or catch while working on
local data: KeyError from a missing dict key, TypeError from subscripting a
non-dict or calling a dataclass constructor with the wrong arity,
AttributeError from calling a string method on a non-string, ValueError
(caught by resolve but never actually raised, since the source performs no
int conversion). -/
inductive PyExn where
  | keyError : PyExn
  | typeError : PyExn
  | attributeError : PyExn
  | valueError : PyExn
deriving Repr

/-- Result of running a Python function: a returned value, or an uncaught
exception propagating to the caller. -/
inductive PyResult (α : Type) where
  | ok : α → PyResult α
  | exn : PyExn → PyResult α
deriving Repr

/-- Python subscription `j[key]` with a string key: on a dict it yields the
value or raises KeyError; on any non-dict value it raises TypeError. -/
def pySubscript (j : Json) (key : String) : Except PyExn Json :=
  match j with
  | .obj fields =>
      match fields.lookup key with
      | some v => Except.ok v
      | none => Except.error PyExn.keyError
  | _ => Except.error PyExn.typeError

/-- Python truthiness of a JSON value: None, False, 0, empty string, empty
list and empty dict are falsy; everything else is truthy. -/
def truthy : Json → Bool
  | .null => false
  | .bool b => b
  | .num n => n != 0
  | .str s => s != ""
  | .arr xs => !xs.isEmpty
  | .obj fs => !fs.isEmpty

/-- Helper for pySplit: splits a character list at every occurrence of the
separator; the list of pieces is never empty. -/
def splitCharAux (sep : Char) : List Char → List (List Char)
  | [] => [[]]
  | c :: rest =>
    match splitCharAux sep rest with
    | h :: t => if c = sep then [] :: (h :: t) else (c :: h) :: t
    | [] => [[c]]

/-- Python str.split with an explicit one-character separator: splits at
every occurrence, keeping empty pieces, and yields [""] on the empty
string. -/
def pySplit (s : String) (sep : Char) : List String :=
  (splitCharAux sep s.toList).map String.mk

/-- dataclass DataStructure(vendor, name, format).  The annotations say
str but Python does not enforce them; the fields hold the passed values. -/
structure DataStructure where
  vendor : Json
  name : Json
  format : Json
deriving Repr

/-- dataclass Version(model, revision, addition).  The annotations say int
but Python does not enforce them; resolve passes the (string) results of
splitting the version string. -/
structure Version where
  model : Json
  revision : Json
  addition : Json
deriving Repr

/-- dataclass Deployment(data_structure, version). -/
structure Deployment where
  data_structure : DataStructure
  version : Version
deriving Repr

mutual

/-- Python repr() of a JSON value (string escaping inside repr is not
modelled; no claim exercises it). -/
def pyRepr : Json → String
  | .null => "None"
  | .bool true => "True"
  | .bool false => "False"
  | .num n => toString n
  | .str s => "\x27" ++ s ++ "\x27"
  | .arr xs => "[" ++ pyReprList xs ++ "]"
  | .obj fs => "\x7b" ++ pyReprFields fs ++ "\x7d"

/-- Comma-separated reprs of list elements. -/
def pyReprList : List Json → String
  | [] => ""
  | [x] => pyRepr x
  | x :: xs => pyRepr x ++ ", " ++ pyReprList xs

/-- Comma-separated reprs of dict entries. -/
def pyReprFields : List (String × Json) → String
  | [] => ""
  | [(k, v)] => "\x27" ++ k ++ "\x27: " ++ pyRepr v
  | (k, v) :: fs => "\x27" ++ k ++ "\x27: " ++ pyRepr v ++ ", " ++ pyReprFields fs

end

/-- Python str() of a JSON value, as used by str.format: identity on
strings, repr-like on everything else. -/
def pyStr : Json → String
  | .str s => s
  | j => pyRepr j

/-- The version string promote builds: "\x7b\x7d-\x7b\x7d-\x7b\x7d".format(model, revision, addition). -/
def versionString (v : Version) : String :=
  pyStr v.model ++ "-" ++ pyStr v.revision ++ "-" ++ pyStr v.addition

/-- Outcome of the body of resolve before its except clauses: either a
Deployment, or the first exception its statements raise, in source order:
subscripting for "self" (or "data" then "self" when includes_meta), then
"vendor", "name", "format", "version"; then version.split("-") (an
AttributeError when the version value is not a string); then
Version(*parts), a TypeError unless exactly three parts were produced.
Note there is no int() conversion anywhere: the three parts are stored as
strings. -/
def resolveExc (data_structure : Json) (includes_meta : Bool) : Except PyExn Deployment := do
  let s ←
    if !includes_meta then
      pySubscript data_structure "self"
    else do
      let d ← pySubscript data_structure "data"
      pySubscript d "self"
  let vendor ← pySubscript s "vendor"
  let name ← pySubscript s "name"
  let ds_format ← pySubscript s "format"
  let version ← pySubscript s "version"
  let vstr ←
    match version with
    | .str t => Except.ok t
    | _ => Except.error PyExn.attributeError
  match pySplit vstr '-' with
  | [a, b, c] =>
      Except.ok ⟨⟨vendor, name, ds_format⟩, ⟨Json.str a, Json.str b, Json.str c⟩⟩
  | _ => Except.error PyExn.typeError

/-- What a call to resolve does: return a value (Some Deployment, or None
when a caught exception was logged), or crash with an uncaught exception. -/
inductive ResolveOutcome where
  | returned : Option Deployment → ResolveOutcome
  | crashed : PyExn → ResolveOutcome
deriving Repr

/-- resolve(data_structure, includes_meta): runs the body and applies the
two except clauses of the source, which catch ValueError and KeyError
(logging a message and falling through to return None).  TypeError and
AttributeError are not caught and crash the caller. -/
def resolve (data_structure : Json) (includes_meta : Bool) : ResolveOutcome :=
  match resolveExc data_structure includes_meta with
  | Except.ok d => ResolveOutcome.returned (some d)
  | Except.error PyExn.valueError => ResolveOutcome.returned none
  | Except.error PyExn.keyError => ResolveOutcome.returned none
  | Except.error e => ResolveOutcome.crashed e

/-- An outbound HTTP POST the program can issue: a validation request or a
deployment (promotion) request, carrying the JSON payload and the bearer
token used.  (The token-fetch GET is a separate, read-only call and is
abstracted by the token oracle below.) -/
inductive Request where
  | validation : Json → String → Request
  | deployment : Json → String → Request
deriving Repr

/-- An HTTP response as the program observes it: the requests.ok flag and
the result of response.json() (none when the body is not parseable JSON,
raising JSONDecodeError). -/
structure Response where
  ok : Bool
  jsonBody : Option Json
deriving Repr

/-- What the network does with a request: raise a RequestException
(transport error) or deliver a response. -/
inductive NetOutcome where
  | transportError : NetOutcome
  | resp : Response → NetOutcome
deriving Repr

/-- handle_response(response, action), shared by validate and promote.
A non-ok status logs and returns False.  An ok status parses the body:
JSONDecodeError or a KeyError (missing "success", or missing "errors" when
logging a failure) is caught and returns False; a truthy "success" value
returns True; subscripting a parseable non-dict body raises TypeError,
which none of the except clauses catch, so it crashes the caller. -/
def handle_response (response : Response) : PyResult Bool :=
  if response.ok then
    match response.jsonBody with
    | none => PyResult.ok false
    | some body =>
      match pySubscript body "success" with
      | Except.error PyExn.keyError => PyResult.ok false
      | Except.error e => PyResult.exn e
      | Except.ok v =>
        if !truthy v then
          match pySubscript body "errors" with
          | Except.error PyExn.keyError => PyResult.ok false
          | Except.error e => PyResult.exn e
          | Except.ok _ => PyResult.ok false
        else PyResult.ok true
  else PyResult.ok false

/-- The body validate POSTs: the envelope wrap when the document does not
already contain the meta section, the document itself otherwise. -/
def validatePayload (data_structure : Json) (stype : String) (contains_meta : Bool) : Json :=
  if !contains_meta then
    Json.obj [("meta", Json.obj [("hidden", Json.bool false),
                                 ("schemaType", Json.str stype),
                                 ("customData", Json.obj [])]),
              ("data", data_structure)]
  else data_structure

/-- validate(data_structure, auth_token, stype, contains_meta): rejects a
stype outside event/entity before any network activity; otherwise POSTs the
payload, returns False on RequestException, and hands the response to
handle_response.  The second component lists the requests issued. -/
def validate (data_structure : Json) (auth_token : String) (stype : String)
    (contains_meta : Bool) (net : Request → NetOutcome) : PyResult Bool × List Request :=
  if ¬(stype = "event" ∨ stype = "entity") then (PyResult.ok false, [])
  else
    let req := Request.validation (validatePayload data_structure stype contains_meta) auth_token
    match net req with
    | NetOutcome.transportError => (PyResult.ok false, [req])
    | NetOutcome.resp r => (handle_response r, [req])

/-- The body promote POSTs: identity fields, the hyphen-joined version
string, source/target selected by to_production, and the message. -/
def promotePayload (deployment : Deployment) (deployment_message : String)
    (to_production : Bool) : Json :=
  Json.obj [("name", deployment.data_structure.name),
            ("vendor", deployment.data_structure.vendor),
            ("format", deployment.data_structure.format),
            ("version", Json.str (versionString deployment.version)),
            ("source", Json.str (if !to_production then "VALIDATED" else "DEV")),
            ("target", Json.str (if !to_production then "DEV" else "PROD")),
            ("message", Json.str deployment_message)]

/-- promote(deployment, auth_token, deployment_message, to_production):
POSTs the deployment payload, returns False on RequestException, and hands
the response to handle_response.  The second component lists the requests
issued. -/
def promote (deployment : Deployment) (auth_token : String) (deployment_message : String)
    (to_production : Bool) (net : Request → NetOutcome) : PyResult Bool × List Request :=
  let req := Request.deployment (promotePayload deployment deployment_message to_production) auth_token
  match net req with
  | NetOutcome.transportError => (PyResult.ok false, [req])
  | NetOutcome.resp r => (handle_response r, [req])

/-- The parsed command-line arguments flow consumes (token_only is handled
before flow is called and is omitted).  Fields in source order of the
argparse declarations. -/
structure Args where
  token : Option String
  file : Option String
  type : Option String
  includes_meta : Bool
  promote_to_dev : Bool
  promote_to_prod : Bool
  message : Option String
deriving Repr

/-- message = args.message if args.message else "No message provided"
(Python truthiness: None and the empty string both take the default). -/
def messageOf : Option String → String
  | some m => if m ≠ "" then m else "No message provided"
  | none => "No message provided"

/-- token = args.token if args.token else get_token(): an explicit, nonempty
token wins; otherwise the result of the token fetch (the second argument,
none when get_token logged a failure and returned None). -/
def resolvedToken : Option String → Option String → Option String
  | some t, fetch => if t ≠ "" then some t else fetch
  | none, fetch => fetch

/-- schema_type = args.type or "event" (Python or: None and the empty
string both default to "event"). -/
def schemaTypeOf : Option String → String
  | some t => if t ≠ "" then t else "event"
  | none => "event"

/-- flow(args): computes message, token, schema and schema_type, then calls
resolve on the schema BEFORE checking any of them for absence — so when
parse_input_file returned None (unreadable or invalid JSON input, modelled
as the `input` argument being none, which resolve sees as Python None) the
subscription inside resolve raises an uncaught TypeError and flow crashes.
When resolve returns, absence of token, schema or spec yields False with no
request; otherwise a set promotion flag dispatches promote (to_production
true exactly when promote_to_prod is set, regardless of promote_to_dev) and
the default path dispatches validate. -/
def flow (args : Args) (tokenFetch : Option String) (input : Option Json)
    (net : Request → NetOutcome) : PyResult Bool × List Request :=
  let message := messageOf args.message
  let token := resolvedToken args.token tokenFetch
  let schema := input.getD Json.null
  let schema_type := schemaTypeOf args.type
  match resolve schema args.includes_meta with
  | ResolveOutcome.crashed e => (PyResult.exn e, [])
  | ResolveOutcome.returned spec =>
    match token, spec with
    | some tok, some sp =>
      if tok = "" ∨ ¬truthy schema then (PyResult.ok false, [])
      else if args.promote_to_dev ∨ args.promote_to_prod then
        promote sp tok message args.promote_to_prod net
      else
        validate schema tok schema_type args.includes_meta net
    | _, _ => (PyResult.ok false, [])

/-- A network oracle that refuses every request with a transport error;
used to instantiate theorems at concrete inputs. -/
def netRefuse : Request → NetOutcome := fun _ => NetOutcome.transportError

/-- Helper: whenever the schema type passes the membership check, validate
issues exactly its one validation request, whatever the network does. -/
theorem validate_requests_eq (doc : Json) (tok stype : String) (meta : Bool)
    (net : Request → NetOutcome) (h : stype = "event" ∨ stype = "entity") :
    (validate doc tok stype meta net).2 =
      [Request.validation (validatePayload doc stype meta) tok] := by
  simp only [validate]
  rw [if_neg (not_not_intro h)]
  cases net (Request.validation (validatePayload doc stype meta) tok) <;> rfl

/-- Helper: promote issues exactly its one deployment request, whatever the
network does. -/
theorem promote_requests_eq (d : Deployment) (tok msg : String) (p : Bool)
    (net : Request → NetOutcome) :
    (promote d tok msg p net).2 = [Request.deployment (promotePayload d msg p) tok] := by
  simp only [promote]
  cases net (Request.deployment (promotePayload d msg p) tok) <;> rfl

/-- Helper: on the happy path (present nonempty token, truthy schema,
successful resolve), flow reduces to the dispatch decision between promote
and validate. -/
theorem flow_dispatch_eq (args : Args) (fetch : Option String) (s : Json)
    (net : Request → NetOutcome) (tok : String) (sp : Deployment)
    (htok : resolvedToken args.token fetch = some tok) (htokne : tok ≠ "")
    (hs : truthy s = true)
    (hres : resolve s args.includes_meta = ResolveOutcome.returned (some sp)) :
    flow args fetch (some s) net =
      if args.promote_to_dev ∨ args.promote_to_prod then
        promote sp tok (messageOf args.message) args.promote_to_prod net
      else
        validate s tok (schemaTypeOf args.type) args.includes_meta net := by
  simp only [flow, Option.getD_some]
  rw [hres, htok]
  simp [htokne, hs]

/-- A schema document whose version string "1-a-0" splits into three
components of which one is not integer-parseable. -/
def c1Doc : Json :=
  Json.obj [("self", Json.obj [("vendor", Json.str "com.acme"),
                               ("name", Json.str "click"),
                               ("format", Json.str "jsonschema"),
                               ("version", Json.str "1-a-0")])]

/-- C1: the claim states that resolve fails for every version string that
does not split into three integer-parseable components, and that a
Deployment is only constructed when all three are integer-parseable.  The
code has no integer conversion at all: on version "1-a-0" resolve returns
a Deployment whose version components are the raw strings "1", "a", "0",
so the claim fails on the code (the dataclass annotates the fields as int,
and the except ValueError clause only makes sense for an intended int()
call, so this is a slip in the code). -/
theorem resolve_accepts_noninteger_version_components :
    resolve c1Doc false =
      ResolveOutcome.returned (some
        ⟨⟨Json.str "com.acme", Json.str "click", Json.str "jsonschema"⟩,
         ⟨Json.str "1", Json.str "a", Json.str "0"⟩⟩) := rfl

/-- A schema document whose version string "1-0" splits into two
components instead of three. -/
def c2Doc : Json :=
  Json.obj [("self", Json.obj [("vendor", Json.str "com.acme"),
                               ("name", Json.str "click"),
                               ("format", Json.str "jsonschema"),
                               ("version", Json.str "1-0")])]

/-- Arguments with an explicit token and no promotion flags. -/
def c2Args : Args := ⟨some "tok", none, none, false, false, false, none⟩

/-- C2: the claim states that no input in any error category crashes the
process.  A malformed version string with the wrong component count is in
the malformed-local-input category, yet Version(*version.split("-")) with
two arguments raises a TypeError that no except clause catches: flow
crashes with an uncaught exception (stack trace) instead of logging and
returning False. -/
theorem flow_crashes_on_malformed_version_count :
    flow c2Args none (some c2Doc) netRefuse = (PyResult.exn PyExn.typeError, []) := rfl

/-- Arguments with an explicit token and no promotion flags. -/
def c3Args : Args := ⟨some "tok", none, none, false, false, false, none⟩

/-- C3: the claim states that when the schema document is absent
(unreadable or invalid JSON, so parse_input_file returned None) flow
returns failure immediately.  The code evaluates resolve(schema, ...)
BEFORE the `not schema` check, and subscripting None raises an uncaught
TypeError: flow crashes instead of returning False.  (No validation or
promotion request is sent, but not by the clean path the claim
describes.) -/
theorem flow_crashes_on_missing_input :
    flow c3Args none none netRefuse = (PyResult.exn PyExn.typeError, []) := rfl

/-- C4 (amended): handle_response returns success exactly when the HTTP
status is ok, the body parses as JSON, and the body has a "success" field
whose value is Python-truthy (not necessarily the boolean true); and a
transport error during validate or promote yields failure. -/
theorem handle_response_success_taxonomy :
    (∀ r : Response, handle_response r = PyResult.ok true ↔
      (r.ok = true ∧ ∃ b v, r.jsonBody = some b ∧
        pySubscript b "success" = Except.ok v ∧ truthy v = true)) ∧
    (∀ doc tok, (validate doc tok "event" false netRefuse).1 = PyResult.ok false) ∧
    (∀ d tok msg p, (promote d tok msg p netRefuse).1 = PyResult.ok false) := by
  refine ⟨?_, fun doc tok => rfl, fun d tok msg p => rfl⟩
  intro r
  rcases r with ⟨rok, rbody⟩
  cases rok with
  | false => simp [handle_response]
  | true =>
    cases rbody with
    | none => simp [handle_response]
    | some body =>
      rcases hsub : pySubscript body "success" with e | v
      · cases e <;> simp [handle_response, hsub]
      · by_cases hv : truthy v = true
        · simp [handle_response, hsub, hv]
        · rw [Bool.not_eq_true] at hv
          rcases herr : pySubscript body "errors" with e2 | v2
          · cases e2 <;> simp [handle_response, hsub, herr, hv]
          · simp [handle_response, hsub, herr, hv]

/-- C4 (counterexample to the claim as stated): an ok response whose body
is the dict with "success" mapped to the number 1 — a value that is not
the JSON boolean true — is nevertheless interpreted as success, because
the source tests `not body["success"]`, i.e. Python truthiness. -/
theorem handle_response_truthy_success_counterexample :
    handle_response ⟨true, some (Json.obj [("success", Json.num 1)])⟩ = PyResult.ok true ∧
    pySubscript (Json.obj [("success", Json.num 1)]) "success" = Except.ok (Json.num 1) ∧
    Json.num 1 ≠ Json.bool true :=
  ⟨rfl, rfl, fun h => Json.noConfusion h⟩

/-- C5: for every document and valid schemaType, validate with
envelopeAlreadyPresent false sends exactly the enveloped payload
(meta.hidden false, meta.schemaType, empty customData, data = document)
as the POST body, and with envelopeAlreadyPresent true sends the document
itself unmodified. -/
theorem validate_payload_shapes (doc : Json) (tok stype : String)
    (net : Request → NetOutcome) (h : stype = "event" ∨ stype = "entity") :
    (validate doc tok stype false net).2 =
      [Request.validation
        (Json.obj [("meta", Json.obj [("hidden", Json.bool false),
                                      ("schemaType", Json.str stype),
                                      ("customData", Json.obj [])]),
                   ("data", doc)]) tok] ∧
    (validate doc tok stype true net).2 = [Request.validation doc tok] :=
  ⟨validate_requests_eq doc tok stype false net h,
   validate_requests_eq doc tok stype true net h⟩

/-- Witness for C5 at a concrete input: schemaType "event", the null
document, token "t", a refusing network. -/
theorem validate_payload_shapes_witness :
    ("event" = "event" ∨ "event" = "entity") ∧
    ((validate Json.null "t" "event" false netRefuse).2 =
      [Request.validation
        (Json.obj [("meta", Json.obj [("hidden", Json.bool false),
                                      ("schemaType", Json.str "event"),
                                      ("customData", Json.obj [])]),
                   ("data", Json.null)]) "t"] ∧
     (validate Json.null "t" "event" true netRefuse).2 =
      [Request.validation Json.null "t"]) :=
  ⟨Or.inl rfl, validate_payload_shapes Json.null "t" "event" netRefuse (Or.inl rfl)⟩

/-- C6: for every deployment, token and message, promote with
toProduction false sends source "VALIDATED" and target "DEV", and with
toProduction true sends source "DEV" and target "PROD"; in both payloads
the version field is the hyphen-joined model-revision-addition triple. -/
theorem promote_payload_source_target_version (d : Deployment) (tok msg : String)
    (net : Request → NetOutcome) :
    (promote d tok msg false net).2 =
      [Request.deployment
        (Json.obj [("name", d.data_structure.name),
                   ("vendor", d.data_structure.vendor),
                   ("format", d.data_structure.format),
                   ("version", Json.str (pyStr d.version.model ++ "-" ++
                      pyStr d.version.revision ++ "-" ++ pyStr d.version.addition)),
                   ("source", Json.str "VALIDATED"),
                   ("target", Json.str "DEV"),
                   ("message", Json.str msg)]) tok] ∧
    (promote d tok msg true net).2 =
      [Request.deployment
        (Json.obj [("name", d.data_structure.name),
                   ("vendor", d.data_structure.vendor),
                   ("format", d.data_structure.format),
                   ("version", Json.str (pyStr d.version.model ++ "-" ++
                      pyStr d.version.revision ++ "-" ++ pyStr d.version.addition)),
                   ("source", Json.str "DEV"),
                   ("target", Json.str "PROD"),
                   ("message", Json.str msg)]) tok] :=
  ⟨promote_requests_eq d tok msg false net, promote_requests_eq d tok msg true net⟩

/-- C7: for every schemaType outside event/entity, validate returns False
and issues no request, regardless of document, token, envelope flag and
network. -/
theorem validate_rejects_unknown_schema_type (doc : Json) (tok stype : String)
    (meta : Bool) (net : Request → NetOutcome)
    (h1 : stype ≠ "event") (h2 : stype ≠ "entity") :
    validate doc tok stype meta net = (PyResult.ok false, []) := by
  simp only [validate]
  rw [if_pos (by rintro (h | h) <;> [exact h1 h; exact h2 h])]

/-- Witness for C7 at the concrete schemaType "table". -/
theorem validate_rejects_unknown_schema_type_witness :
    ("table" ≠ "event" ∧ "table" ≠ "entity") ∧
    validate Json.null "t" "table" false netRefuse = (PyResult.ok false, []) :=
  ⟨⟨by decide, by decide⟩,
   validate_rejects_unknown_schema_type Json.null "t" "table" false netRefuse
     (by decide) (by decide)⟩

/-- The round-trip document of the claim, with version string "1-0-0". -/
def c8Doc : Json :=
  Json.obj [("self", Json.obj [("vendor", Json.str "com.acme"),
                               ("name", Json.str "click"),
                               ("format", Json.str "jsonschema"),
                               ("version", Json.str "1-0-0")])]

/-- C8: the claim states the document resolves to identity
{com.acme, click, jsonschema} and version {model: 1, revision: 0,
addition: 0} (integers), and that hyphen-joining reproduces "1-0-0".  The
identity and the round-trip hold, but the resolved version components are
the strings "1", "0", "0", not integers: the source never converts them
(same slip as C1).  The join as promote performs it still yields
"1-0-0". -/
theorem resolve_roundtrip_string_components :
    resolve c8Doc false =
      ResolveOutcome.returned (some
        ⟨⟨Json.str "com.acme", Json.str "click", Json.str "jsonschema"⟩,
         ⟨Json.str "1", Json.str "0", Json.str "0"⟩⟩) ∧
    versionString ⟨Json.str "1", Json.str "0", Json.str "0"⟩ = "1-0-0" ∧
    resolve c8Doc false ≠
      ResolveOutcome.returned (some
        ⟨⟨Json.str "com.acme", Json.str "click", Json.str "jsonschema"⟩,
         ⟨Json.num 1, Json.num 0, Json.num 0⟩⟩) := by
  refine ⟨rfl, rfl, fun h => ?_⟩
  rw [show resolve c8Doc false =
      ResolveOutcome.returned (some
        ⟨⟨Json.str "com.acme", Json.str "click", Json.str "jsonschema"⟩,
         ⟨Json.str "1", Json.str "0", Json.str "0"⟩⟩) from rfl] at h
  simp [Version.mk.injEq, Deployment.mk.injEq] at h

/-- C9: when both promotion flags are set in one invocation (on a happy
path: present nonempty token, truthy schema, successful resolve), flow
silently prefers production: it dispatches exactly one promotion request,
built with to_production true, whose source is "DEV" and target is
"PROD". -/
theorem flow_both_promotion_flags_prefers_prod (args : Args) (fetch : Option String)
    (s : Json) (net : Request → NetOutcome) (tok : String) (sp : Deployment)
    (hdev : args.promote_to_dev = true) (hprod : args.promote_to_prod = true)
    (htok : resolvedToken args.token fetch = some tok) (htokne : tok ≠ "")
    (hs : truthy s = true)
    (hres : resolve s args.includes_meta = ResolveOutcome.returned (some sp)) :
    (flow args fetch (some s) net).2 =
      [Request.deployment (promotePayload sp (messageOf args.message) true) tok] ∧
    pySubscript (promotePayload sp (messageOf args.message) true) "source" =
      Except.ok (Json.str "DEV") ∧
    pySubscript (promotePayload sp (messageOf args.message) true) "target" =
      Except.ok (Json.str "PROD") := by
  refine ⟨?_, rfl, rfl⟩
  rw [flow_dispatch_eq args fetch s net tok sp htok htokne hs hres]
  rw [hprod, if_pos (Or.inr rfl)]
  exact promote_requests_eq sp tok (messageOf args.message) true net

/-- Concrete arguments for the C9 witness: explicit token "t", both
promotion flags set. -/
def c9Args : Args := ⟨some "t", none, none, false, true, true, none⟩

/-- Concrete document for the C9 witness. -/
def c9Doc : Json :=
  Json.obj [("self", Json.obj [("vendor", Json.str "com.acme"),
                               ("name", Json.str "pageview"),
                               ("format", Json.str "jsonschema"),
                               ("version", Json.str "2-1-0")])]

/-- The deployment c9Doc resolves to. -/
def c9Dep : Deployment :=
  ⟨⟨Json.str "com.acme", Json.str "pageview", Json.str "jsonschema"⟩,
   ⟨Json.str "2", Json.str "1", Json.str "0"⟩⟩

/-- Witness for C9 at concrete inputs. -/
theorem flow_both_promotion_flags_prefers_prod_witness :
    (c9Args.promote_to_dev = true ∧ c9Args.promote_to_prod = true ∧
     resolvedToken c9Args.token none = some "t" ∧ "t" ≠ "" ∧
     truthy c9Doc = true ∧
     resolve c9Doc c9Args.includes_meta = ResolveOutcome.returned (some c9Dep)) ∧
    ((flow c9Args none (some c9Doc) netRefuse).2 =
      [Request.deployment (promotePayload c9Dep (messageOf c9Args.message) true) "t"] ∧
     pySubscript (promotePayload c9Dep (messageOf c9Args.message) true) "source" =
       Except.ok (Json.str "DEV") ∧
     pySubscript (promotePayload c9Dep (messageOf c9Args.message) true) "target" =
       Except.ok (Json.str "PROD")) :=
  ⟨⟨rfl, rfl, rfl, by decide, rfl, rfl⟩,
   flow_both_promotion_flags_prefers_prod c9Args none c9Doc netRefuse "t" c9Dep
     rfl rfl rfl (by decide) rfl rfl⟩

/-- C10: when no type argument is supplied and neither promotion flag is
set (on a happy path: present nonempty token, truthy schema, successful
resolve), flow silently defaults the schema type to "event" and dispatches
the validation request — the network call proceeds rather than the missing
type being rejected. -/
theorem flow_missing_type_defaults_to_event (args : Args) (fetch : Option String)
    (s : Json) (net : Request → NetOutcome) (tok : String) (sp : Deployment)
    (hty : args.type = none)
    (hdev : args.promote_to_dev = false) (hprod : args.promote_to_prod = false)
    (htok : resolvedToken args.token fetch = some tok) (htokne : tok ≠ "")
    (hs : truthy s = true)
    (hres : resolve s args.includes_meta = ResolveOutcome.returned (some sp)) :
    (flow args fetch (some s) net).2 =
      [Request.validation (validatePayload s "event" args.includes_meta) tok] := by
  rw [flow_dispatch_eq args fetch s net tok sp htok htokne hs hres]
  rw [hdev, hprod, if_neg (by simp)]
  rw [hty]
  exact validate_requests_eq s tok "event" args.includes_meta net (Or.inl rfl)

/-- Concrete arguments for the C10 witness: explicit token "t", no type
argument, no promotion flags. -/
def c10Args : Args := ⟨some "t", none, none, false, false, false, none⟩

/-- Concrete document for the C10 witness. -/
def c10Doc : Json :=
  Json.obj [("self", Json.obj [("vendor", Json.str "com.acme"),
                               ("name", Json.str "checkout"),
                               ("format", Json.str "jsonschema"),
                               ("version", Json.str "3-0-1")])]

/-- The deployment c10Doc resolves to. -/
def c10Dep : Deployment :=
  ⟨⟨Json.str "com.acme", Json.str "checkout", Json.str "jsonschema"⟩,
   ⟨Json.str "3", Json.str "0", Json.str "1"⟩⟩

/-- Witness for C10 at concrete inputs. -/
theorem flow_missing_type_defaults_to_event_witness :
    (c10Args.type = none ∧ c10Args.promote_to_dev = false ∧
     c10Args.promote_to_prod = false ∧
     resolvedToken c10Args.token none = some "t" ∧ "t" ≠ "" ∧
     truthy c10Doc = true ∧
     resolve c10Doc c10Args.includes_meta = ResolveOutcome.returned (some c10Dep)) ∧
    (flow c10Args none (some c10Doc) netRefuse).2 =
      [Request.validation (validatePayload c10Doc "event" c10Args.includes_meta) "t"] :=
  ⟨⟨rfl, rfl, rfl, rfl, by decide, rfl, rfl⟩,
   flow_missing_type_defaults_to_event c10Args none c10Doc netRefuse "t" c10Dep
     rfl rfl rfl rfl (by decide) rfl rfl⟩

end Dsctl
